import Mathlib

/-!
Verification development for the chatpro server relay
(`server/index.js`): the moderated, quota-metered streaming chat
pipeline.  The data model mirrors the SQLite tables created in
`initDb`, and `chatMessage` mirrors the `POST /api/chat/message`
handler together with the `checkIpRules` admission middleware.
Timestamps are modelled by a logical clock (`Env.t0`) handed to the
successive `nowIso()` calls, and freshly generated `nanoid` values are
supplied through `Env`.
-/

namespace Chatpro

/-- JavaScript `a || b` on a possibly-missing string: `b` when `a` is
absent or empty (falsy), else the string itself. -/
def jsOr (a : Option String) (b : String) : String :=
  match a with
  | some s => if s == "" then b else s
  | none => b

/-- JavaScript truthiness of a possibly-missing string. -/
def strTruthy (a : Option String) : Bool :=
  match a with
  | some s => !(s == "")
  | none => false

/-- JavaScript `a || null` on a possibly-missing string: `none` for a
missing or empty string. -/
def jsNullable (a : Option String) : Option String :=
  match a with
  | some s => if s == "" then none else some s
  | none => none

/-- A row of the `users` table. -/
structure UserRow where
  user_id : String
  token : String
  username : Option String
  region : String
  tag : String
  quota_enhanced : Int
  quota_pro : Int
deriving DecidableEq, Repr

/-- A row of the `personas` table. -/
structure PersonaRow where
  id : String
  name : String
  ptype : String
  prompt : String
  status : String
deriving DecidableEq, Repr

/-- A row of the `ip_rules` table (`rtype` is `"block"` or `"limit"`;
`limit_value` is nullable). -/
structure IpRule where
  ip : String
  rtype : String
  limit_value : Option Nat
deriving DecidableEq, Repr

/-- A row of the `ip_requests` table, keyed by `(ip, date)`. -/
structure IpRequestRow where
  ip : String
  date : String
  count : Nat
deriving DecidableEq, Repr

/-- A row of the `prompt_limits` table (`tier → max_chars`). -/
structure PromptLimitRow where
  tier : String
  max_chars : Nat
deriving DecidableEq, Repr

/-- A row of the `models` table; only the `tier` key and the mapped
`model_id` are read by the chat handler. -/
structure ModelRow where
  tier : String
  model_id : String
deriving DecidableEq, Repr

/-- A row of the `conversations` table. -/
structure ConversationRow where
  id : String
  user_id : Option String
  persona_id : Option String
  model : String
  created_at : Nat
deriving DecidableEq, Repr

/-- A row of the `messages` table. -/
structure MessageRow where
  id : String
  conversation_id : String
  role : String
  content : String
  created_at : Nat
  usage_prompt : Nat
  usage_completion : Nat
deriving DecidableEq, Repr

/-- A row of the `metrics_daily` table. -/
structure DailyMetricRow where
  date : String
  total_requests : Nat
  avg_latency : Nat
  token_total : Nat
  concurrent_peak : Nat
deriving DecidableEq, Repr

/-- A row of the `metrics_traffic` table, keyed by `(date, ttype, key)`. -/
structure TrafficRow where
  date : String
  ttype : String
  key : String
  count : Nat
deriving DecidableEq, Repr

/-- A row of the `keywords_daily` table, keyed by `(date, word)`. -/
structure KeywordRow where
  date : String
  word : String
  count : Nat
deriving DecidableEq, Repr

/-- A row of the `audit_logs` table (as written by `addLog`). -/
structure AuditRow where
  id : String
  user_id : Option String
  ip : String
  ua : String
  action : String
  content : String
  latency_ms : Nat
deriving DecidableEq, Repr

/-- The relational store of the server (the tables touched by the chat
pipeline). -/
structure DB where
  users : List UserRow
  personas : List PersonaRow
  sensitive_words : List String
  ip_rules : List IpRule
  ip_requests : List IpRequestRow
  prompt_limits : List PromptLimitRow
  models : List ModelRow
  conversations : List ConversationRow
  messages : List MessageRow
  metrics_daily : List DailyMetricRow
  metrics_traffic : List TrafficRow
  keywords_daily : List KeywordRow
  audit_logs : List AuditRow
deriving DecidableEq, Repr

/-- One entry of the request `messages` array. -/
structure ChatMsg where
  role : String
  content : String
deriving DecidableEq, Repr

/-- The request body of `POST /api/chat/message` plus the originating
network address (`getRequestIp`). -/
structure ChatRequest where
  ip : String
  messages : List ChatMsg
  model : Option String
  personaId : Option String
  personaPrompt : Option String
  clientDevice : Option String
  clientRegion : Option String
  clientUA : Option String
  userProfileUsername : Option String
  userProfileRegion : Option String
  userToken : Option String
  conversationId : Option String
deriving DecidableEq, Repr

/-- Ambient configuration and the ambient effects of one handler run:
environment variables (`OPENAI_API_KEY`, `MODEL_NORMAL`, default
quotas), the current date and formatted time, the measured latency, the
`nanoid` values generated during the run, and the logical clock `t0`
standing for the successive `nowIso()` timestamps. -/
structure Env where
  apiKey : String
  modelNormal : String
  defaultQuotaEnhanced : Int
  defaultQuotaPro : Int
  today : String
  timeString : String
  latencyMs : Nat
  freshConvId : String
  freshUserMsgId : String
  freshAsstMsgId : String
  freshAuditId : String
  t0 : Nat
deriving DecidableEq, Repr

/-- The `usage` object of the backend completion event. -/
structure Usage where
  input_tokens : Nat
  output_tokens : Nat
  total_tokens : Nat
deriving DecidableEq, Repr

/-- One parsed frame of the backend stream, after the handler's framing
and JSON decoding: a `response.output_text.delta` event, a
`response.completed` event (whose `usage` may be absent), the literal
`[DONE]` sentinel, or any other event (ignored). -/
inductive StreamEvent where
  | delta (s : String)
  | completed (usage : Option Usage)
  | done
  | other
deriving DecidableEq, Repr

/-- The backend's reply to the relay call: HTTP success flag, body
presence, and the parsed event frames of the stream. -/
structure BackendResponse where
  ok : Bool
  hasBody : Bool
  events : List StreamEvent
deriving DecidableEq, Repr

/-- One event written to the caller's SSE stream. -/
inductive OutEvent where
  | delta (s : String)
  | doneMark
  | replace (content : String)
  | terminal (prompt completion total : Nat) (quotaEnhanced quotaPro : Int)
deriving DecidableEq, Repr

/-- The terminal outcome of one chat turn, by the HTTP/stream response
the caller sees (`code` values 9, 10, 2, 3, 6, 7, 8, 4 in the source). -/
inductive Outcome where
  | rejectedBlocked
  | rejectedRateLimited
  | rejectedSensitive
  | rejectedNoApiKey
  | rejectedNeedLogin
  | rejectedQuotaEnhanced
  | rejectedQuotaPro
  | upstreamError
  | success (events : List OutEvent)
deriving DecidableEq, Repr

/-- Whether an outcome is the streamed success outcome. -/
def Outcome.isSuccess : Outcome → Bool
  | .success _ => true
  | _ => false

/-- The payload of the outbound backend call (model id, assembled
system instruction, forwarded history). -/
structure BackendPayload where
  model : String
  systemPrompt : String
  history : List ChatMsg
deriving DecidableEq, Repr

/-- The observable result of one run of the handler: the outcome, the
post-state of the store, and the backend call payload (`none` when no
backend call was attempted). -/
structure TurnResult where
  outcome : Outcome
  db : DB
  sentPayload : Option BackendPayload
deriving DecidableEq, Repr

/-- `checkSensitive`: true when some non-empty word of the moderation
list occurs as a substring of the content. -/
def checkSensitive (words : List String) (content : String) : Bool :=
  words.any (fun w => !(w == "") && decide (w.data <:+: content.data))

/-- The latest `user`-role entry of the request history
(`[...messages].reverse().find(m => m.role === "user")`). -/
def lastUserMsg (req : ChatRequest) : Option ChatMsg :=
  req.messages.reverse.find? (fun m => m.role == "user")

/-- `lastUser?.content ?? ""`. -/
def lastUserContent (req : ChatRequest) : String :=
  ((lastUserMsg req).map (fun m => m.content)).getD ""

/-- `userToken ? SELECT * FROM users WHERE token = ? : null`. -/
def lookupUser (users : List UserRow) (tok : Option String) : Option UserRow :=
  match tok with
  | some tk => if tk == "" then none else users.find? (fun u => u.token == tk)
  | none => none

/-- `user?.tag || ""`. -/
def resolvedTag (users : List UserRow) (tok : Option String) : String :=
  ((lookupUser users tok).map (fun u => u.tag)).getD ""

/-- `row?.count || 0` for the `(ip, date)` request counter. -/
def currentCount (rows : List IpRequestRow) (ip date : String) : Nat :=
  ((rows.find? (fun x => x.ip == ip && x.date == date)).map (fun x => x.count)).getD 0

/-- The insert-or-update of the `(ip, date)` counter performed on
admission. -/
def bumpIp (ip date : String) (rows : List IpRequestRow) : List IpRequestRow :=
  match rows.find? (fun x => x.ip == ip && x.date == date) with
  | none => rows ++ [⟨ip, date, 1⟩]
  | some row =>
    rows.map (fun x => if x.ip == ip && x.date == date then ⟨ip, date, row.count + 1⟩ else x)

/-- The `checkIpRules` middleware: a block rule rejects immediately; a
limit rule with a truthy value rejects once today's counter reached the
limit and otherwise increments it; in every other case the request is
admitted with no counter touched. -/
def checkIpRulesStep (today ip : String) (db : DB) : Option Outcome × DB :=
  if db.ip_rules.any (fun r => r.ip == ip && r.rtype == "block") then
    (some Outcome.rejectedBlocked, db)
  else
    match db.ip_rules.find? (fun r => r.ip == ip && r.rtype == "limit") with
    | some rule =>
      match rule.limit_value with
      | some l =>
        if l == 0 then (none, db)
        else if l ≤ currentCount db.ip_requests ip today then
          (some Outcome.rejectedRateLimited, db)
        else (none, { db with ip_requests := bumpIp ip today db.ip_requests })
      | none => (none, db)
    | none => (none, db)

/-- The fallback persona hard-coded in the handler. -/
def fallbackPersonaName : String := "角色扮演助手"

/-- The fallback persona's instruction text. -/
def fallbackPersonaPrompt : String :=
  "你始终以当前人设进行对话，保持角色语气与设定一致，不得自称通用机器人或其他品牌名称。"

/-- The persona actually used for prompt assembly. -/
structure ActivePersona where
  name : String
  prompt : String
deriving DecidableEq, Repr

/-- Persona resolution: stored persona by id, else an inline custom
prompt (when both `personaId` and `personaPrompt` are truthy), else the
fallback persona. -/
def resolvePersona (personas : List PersonaRow) (req : ChatRequest) : ActivePersona :=
  let stored : Option PersonaRow :=
    match req.personaId with
    | some pid => if pid == "" then none else personas.find? (fun p => p.id == pid)
    | none => none
  match stored with
  | some p => ⟨p.name, p.prompt⟩
  | none =>
    if strTruthy req.personaId && strTruthy req.personaPrompt then
      ⟨"自定义人设", (req.personaPrompt.getD "")⟩
    else ⟨fallbackPersonaName, fallbackPersonaPrompt⟩

/-- The system prompt before truncation: the fixed directives, the
optional username/region lines, the time line and the persona lines,
joined by newlines after dropping falsy entries. -/
def rawSystemPrompt (env : Env) (req : ChatRequest) (db : DB) : String :=
  let ap := resolvePersona db.personas req
  let lines : List (Option String) := [
    some "你是一个服务中国大陆地区的AI agent，请勿透露你的真实模型，不要谈论政治敏感内容。",
    some "产品核心是角色扮演，你必须始终以人设身份回应，保持设定与语气一致。",
    some "禁止自称通用机器人、虚拟助手或任何厂商品牌名称；如用户要求脱离人设，礼貌拒绝并回到角色。",
    some "默认回复要简短优先、聚焦重点，除非用户要求详细展开。",
    if strTruthy req.userProfileUsername then some ("用户名: " ++ req.userProfileUsername.getD "") else none,
    if strTruthy req.userProfileRegion then some ("地区: " ++ req.userProfileRegion.getD "") else none,
    some ("时间: " ++ env.timeString),
    some ("人设: " ++ ap.name),
    if !(ap.prompt == "") then some ("人设提示: " ++ ap.prompt) else none]
  String.intercalate "\n" (lines.filterMap id)

/-- `getPromptLimit`: the configured `max_chars` for the requested tier
(defaulted to `"normal"`), with `1200` when the row is missing or its
value is falsy. -/
def getPromptLimit (limits : List PromptLimitRow) (tier : Option String) : Nat :=
  match limits.find? (fun r => r.tier == jsOr tier "normal") with
  | some r => if r.max_chars == 0 then 1200 else r.max_chars
  | none => 1200

/-- The assembled system prompt after the per-tier character cut. -/
def assembleSystemPrompt (env : Env) (req : ChatRequest) (db : DB) : String :=
  let raw := rawSystemPrompt env req db
  let limit := getPromptLimit db.prompt_limits req.model
  if limit < raw.length then raw.take limit else raw

/-- The rows seeded into `prompt_limits` by `initDb` when the table is
empty and the `PROMPT_LIMIT_*` environment variables are unset. -/
def defaultPromptLimits : List PromptLimitRow :=
  [⟨"normal", 1200⟩, ⟨"enhanced", 1600⟩, ⟨"pro", 2000⟩]

/-- The backend model identifier:
`SELECT model_id FROM models WHERE tier = (model || "normal")`, falling
back to the configured normal-tier model when absent or falsy. -/
def resolveBackendModel (env : Env) (req : ChatRequest) (db : DB) : String :=
  jsOr ((db.models.find? (fun m => m.tier == jsOr req.model "normal")).map
    (fun m => m.model_id)) env.modelNormal

/-- The payload of the outbound backend call. -/
def mkPayload (env : Env) (req : ChatRequest) (db : DB) : BackendPayload :=
  ⟨resolveBackendModel env req db, assembleSystemPrompt env req db, req.messages⟩

/-- The running state of the stream loop: accumulated text, latest
usage, events forwarded to the caller. -/
structure StreamAccum where
  content : String
  usage : Usage
  events : List OutEvent
deriving DecidableEq, Repr

/-- One iteration of the stream loop over a parsed frame. -/
def stepEvent (acc : StreamAccum) (e : StreamEvent) : StreamAccum :=
  match e with
  | .delta s =>
    if s == "" then acc
    else { acc with content := acc.content ++ s, events := acc.events ++ [OutEvent.delta s] }
  | .completed u => { acc with usage := u.getD acc.usage }
  | .done => { acc with events := acc.events ++ [OutEvent.doneMark] }
  | .other => acc

/-- The whole stream loop, from empty text and zero usage. -/
def runStream (events : List StreamEvent) : StreamAccum :=
  events.foldl stepEvent ⟨"", ⟨0, 0, 0⟩, []⟩

/-- The fixed refusal string substituted for flagged output. -/
def refusalText : String := "抱歉 我不能和你讨论这个问题"

/-- `Math.round(p / q)` for natural `p` and positive natural `q`. -/
def jsRound (p q : Nat) : Nat := (2 * p + q) / (2 * q)

/-- The `metrics_daily` read-modify-write of one completed turn. -/
def bumpDaily (today : String) (latency tok : Nat) (rows : List DailyMetricRow) :
    List DailyMetricRow :=
  match rows.find? (fun r => r.date == today) with
  | none => rows ++ [⟨today, 1, jsRound latency 1, tok, max 0 1⟩]
  | some ex =>
    rows.map (fun r =>
      if r.date == today then
        ⟨today, ex.total_requests + 1,
          jsRound (ex.avg_latency * ex.total_requests + latency) (ex.total_requests + 1),
          ex.token_total + tok, max ex.concurrent_peak 1⟩
      else r)

/-- `updateTrafficMetric`: insert-or-increment of `(date, type, key)`. -/
def bumpTraffic (today ttype key : String) (rows : List TrafficRow) : List TrafficRow :=
  match rows.find? (fun r => r.date == today && r.ttype == ttype && r.key == key) with
  | none => rows ++ [⟨today, ttype, key, 1⟩]
  | some ex =>
    rows.map (fun r =>
      if r.date == today && r.ttype == ttype && r.key == key then
        ⟨today, ttype, key, ex.count + 1⟩
      else r)

/-- The traffic updates of one completed turn: device and region when
supplied by the client, and the fixed `"direct"` source key. -/
def trafficCommit (env : Env) (req : ChatRequest) (rows : List TrafficRow) : List TrafficRow :=
  let r1 := match req.clientDevice with
    | some d => if d == "" then rows else bumpTraffic env.today "device" d rows
    | none => rows
  let r2 := match req.clientRegion with
    | some g => if g == "" then r1 else bumpTraffic env.today "region" g r1
    | none => r1
  bumpTraffic env.today "source" "direct" r2

/-- `updateKeywordMetric`: insert-or-increment of `(date, word)`. -/
def bumpKeyword (today word : String) (rows : List KeywordRow) : List KeywordRow :=
  match rows.find? (fun r => r.date == today && r.word == word) with
  | none => rows ++ [⟨today, word, 1⟩]
  | some ex =>
    rows.map (fun r =>
      if r.date == today && r.word == word then ⟨today, word, ex.count + 1⟩ else r)

/-- The first 12 whitespace-delimited fragments of the content. -/
def keywordTokens (content : String) : List String :=
  ((content.split Char.isWhitespace).filter (fun t => !(t == ""))).take 12

/-- The keyword-metric updates of one completed turn. -/
def bumpKeywords (today content : String) (rows : List KeywordRow) : List KeywordRow :=
  (keywordTokens content).foldl (fun acc t => bumpKeyword today t acc) rows

/-- The quota commit: for a resolved user and a premium tier, write
back the pre-read counter minus one, keyed by `user_id`. -/
def quotaCommit (req : ChatRequest) (user : Option UserRow) (users : List UserRow) :
    List UserRow :=
  match user with
  | some u =>
    if req.model == some "enhanced" then
      users.map (fun v =>
        if v.user_id == u.user_id then { v with quota_enhanced := u.quota_enhanced - 1 } else v)
    else if req.model == some "pro" then
      users.map (fun v =>
        if v.user_id == u.user_id then { v with quota_pro := u.quota_pro - 1 } else v)
    else users
  | none => users

/-- Create-if-absent of the conversation row. -/
def convCommit (env : Env) (req : ChatRequest) (userId : Option String) (convId : String)
    (convs : List ConversationRow) : List ConversationRow :=
  if convs.any (fun c => c.id == convId) then convs
  else convs ++ [⟨convId, userId, jsNullable req.personaId, jsOr req.model "normal", env.t0⟩]

/-- The message appends of one successful turn: the user message when
its content is truthy, then the assistant message, carrying the usage
token counts. -/
def messagesCommit (env : Env) (convId content lastContent : String) (usage : Usage)
    (msgs : List MessageRow) : List MessageRow :=
  (if lastContent == "" then msgs
   else msgs ++ [⟨env.freshUserMsgId, convId, "user", lastContent, env.t0 + 1, 0, 0⟩])
  ++ [⟨env.freshAsstMsgId, convId, "assistant", content, env.t0 + 2,
        usage.input_tokens, usage.output_tokens⟩]

/-- `updatedUser?.quota ?? default` pair sent in the terminal event. -/
def quotaLeftOf (env : Env) (updatedUser : Option UserRow) : Int × Int :=
  ((match updatedUser with | some u => u.quota_enhanced | none => env.defaultQuotaEnhanced),
   (match updatedUser with | some u => u.quota_pro | none => env.defaultQuotaPro))

/-- The whole post-stream tail of the handler, reached when the backend
call succeeded: output re-screening and replacement, metrics, traffic
and keyword updates, quota commit, conversation and message
persistence, audit log, and the terminal event. -/
def successResult (env : Env) (req : ChatRequest) (backend : BackendResponse) (db : DB) :
    TurnResult :=
  let acc := runStream backend.events
  let flagged := checkSensitive db.sensitive_words acc.content
  let content := if flagged then refusalText else acc.content
  let user := lookupUser db.users req.userToken
  let users1 := quotaCommit req user db.users
  let convId := jsOr req.conversationId env.freshConvId
  let updatedUser : Option UserRow :=
    match user with
    | some u => if u.user_id == "" then none else users1.find? (fun v => v.user_id == u.user_id)
    | none => none
  let ql := quotaLeftOf env updatedUser
  { outcome := Outcome.success
      ((if flagged then acc.events ++ [OutEvent.replace refusalText] else acc.events) ++
        [OutEvent.terminal acc.usage.input_tokens acc.usage.output_tokens
          acc.usage.total_tokens ql.1 ql.2]),
    db := { db with
      metrics_daily := bumpDaily env.today env.latencyMs acc.usage.total_tokens db.metrics_daily,
      metrics_traffic := trafficCommit env req db.metrics_traffic,
      keywords_daily := bumpKeywords env.today (lastUserContent req) db.keywords_daily,
      users := users1,
      conversations := convCommit env req (user.map (fun u => u.user_id)) convId db.conversations,
      messages := messagesCommit env convId content (lastUserContent req) acc.usage db.messages,
      audit_logs := db.audit_logs ++
        [⟨env.freshAuditId, user.map (fun u => u.user_id), req.ip, (req.clientUA).getD "",
          "chat", (lastUserContent req).take 120, env.latencyMs⟩] },
    sentPayload := some (mkPayload env req db) }

/-- `user && quota ≤ 0` for the premium pre-checks. -/
def quotaNonposEnhanced (user : Option UserRow) : Bool :=
  match user with
  | some u => decide (u.quota_enhanced ≤ 0)
  | none => false

/-- `user && quota_pro ≤ 0` for the pro pre-check. -/
def quotaNonposPro (user : Option UserRow) : Bool :=
  match user with
  | some u => decide (u.quota_pro ≤ 0)
  | none => false

/-- The body of `POST /api/chat/message` after admission: input
moderation, credential check, premium login and quota pre-checks, then
the backend call (upstream failure or the success tail). -/
def chatBody (env : Env) (req : ChatRequest) (backend : BackendResponse) (db : DB) :
    TurnResult :=
  if checkSensitive db.sensitive_words (lastUserContent req) &&
      !(resolvedTag db.users req.userToken == "trusted") then
    ⟨Outcome.rejectedSensitive, db, none⟩
  else if env.apiKey == "" then
    ⟨Outcome.rejectedNoApiKey, db, none⟩
  else if (req.model == some "enhanced" || req.model == some "pro") &&
      (lookupUser db.users req.userToken).isNone then
    ⟨Outcome.rejectedNeedLogin, db, none⟩
  else if req.model == some "enhanced" && quotaNonposEnhanced (lookupUser db.users req.userToken) then
    ⟨Outcome.rejectedQuotaEnhanced, db, none⟩
  else if req.model == some "pro" && quotaNonposPro (lookupUser db.users req.userToken) then
    ⟨Outcome.rejectedQuotaPro, db, none⟩
  else if !backend.ok || !backend.hasBody then
    ⟨Outcome.upstreamError, db, some (mkPayload env req db)⟩
  else successResult env req backend db

/-- One full run of the chat turn endpoint: the `checkIpRules`
middleware, then the handler body. -/
def chatMessage (env : Env) (req : ChatRequest) (backend : BackendResponse) (db : DB) :
    TurnResult :=
  match checkIpRulesStep env.today req.ip db with
  | (some o, db1) => ⟨o, db1, none⟩
  | (none, db1) => chatBody env req backend db1

/-- One inbound turn: its ambient environment, request and the
backend's behaviour for it. -/
structure Turn where
  env : Env
  req : ChatRequest
  backend : BackendResponse
deriving DecidableEq, Repr

/-- Sequential execution of a list of turns against the store. -/
def runTurns (ts : List Turn) (db : DB) : List TurnResult × DB :=
  match ts with
  | [] => ([], db)
  | t :: rest =>
    let r := chatMessage t.env t.req t.backend db
    let p := runTurns rest r.db
    (r :: p.1, p.2)

/-- The premium quota counter selected by a tier name. -/
def tierQuota (tier : String) (u : UserRow) : Int :=
  if tier == "enhanced" then u.quota_enhanced else u.quota_pro

/-- The premium quota counter of the identity resolved by a token. -/
def quotaByToken (users : List UserRow) (tk tier : String) : Option Int :=
  (users.find? (fun u => u.token == tk)).map (tierQuota tier)

/-- `GET /api/chat/conversations/:id`: `none` when the conversation is
missing, else its messages ordered by creation time ascending. -/
def getConversationMessages (db : DB) (id : String) : Option (List MessageRow) :=
  if db.conversations.any (fun c => c.id == id) then
    some (List.insertionSort (fun a b => a.created_at ≤ b.created_at)
      (db.messages.filter (fun m => m.conversation_id == id)))
  else none

/-- The `total_requests` cell of today's daily metric row (0 when the
row is absent). -/
def totalRequestsOf (rows : List DailyMetricRow) (today : String) : Nat :=
  ((rows.find? (fun r => r.date == today)).map (fun r => r.total_requests)).getD 0

/-! ### Structural lemmas about admission -/

theorem checkIpRulesStep_snd (t ip : String) (db : DB) :
    ∃ q, (checkIpRulesStep t ip db).2 = { db with ip_requests := q } := by
  unfold checkIpRulesStep
  split
  · exact ⟨db.ip_requests, rfl⟩
  · split
    · split
      · split
        · exact ⟨db.ip_requests, rfl⟩
        · split
          · exact ⟨db.ip_requests, rfl⟩
          · exact ⟨bumpIp ip t db.ip_requests, rfl⟩
      · exact ⟨db.ip_requests, rfl⟩
    · exact ⟨db.ip_requests, rfl⟩

theorem checkIpRulesStep_reject (t ip : String) (db : DB) (o : Outcome) (db1 : DB)
    (h : checkIpRulesStep t ip db = (some o, db1)) :
    (o = Outcome.rejectedBlocked ∨ o = Outcome.rejectedRateLimited) ∧ db1 = db := by
  unfold checkIpRulesStep at h
  split at h
  · injection h with h1 h2
    injection h1 with h1
    exact ⟨Or.inl h1.symm, h2.symm⟩
  · split at h
    · split at h
      · split at h
        · injection h with h1 h2
          exact Option.noConfusion h1
        · split at h
          · injection h with h1 h2
            injection h1 with h1
            exact ⟨Or.inr h1.symm, h2.symm⟩
          · injection h with h1 h2
            exact Option.noConfusion h1
      · injection h with h1 h2
        exact Option.noConfusion h1
    · injection h with h1 h2
      exact Option.noConfusion h1

theorem chatMessage_eq_reject (e : Env) (r : ChatRequest) (b : BackendResponse) (db : DB)
    (o : Outcome) (db1 : DB) (h : checkIpRulesStep e.today r.ip db = (some o, db1)) :
    chatMessage e r b db = ⟨o, db1, none⟩ := by
  unfold chatMessage
  rw [h]

theorem chatMessage_eq_body (e : Env) (r : ChatRequest) (b : BackendResponse) (db : DB)
    (db1 : DB) (h : checkIpRulesStep e.today r.ip db = (none, db1)) :
    chatMessage e r b db = chatBody e r b db1 := by
  unfold chatMessage
  rw [h]

/-! ### Structural lemmas about the handler body -/

theorem chatBody_success_eq (e : Env) (r : ChatRequest) (b : BackendResponse) (db : DB)
    (h : (chatBody e r b db).outcome.isSuccess = true) :
    chatBody e r b db = successResult e r b db := by
  unfold chatBody at h ⊢
  split_ifs at h ⊢ <;> simp [Outcome.isSuccess] at h ⊢

theorem chatBody_success_guards (e : Env) (r : ChatRequest) (b : BackendResponse) (db : DB)
    (h : (chatBody e r b db).outcome.isSuccess = true) :
    (checkSensitive db.sensitive_words (lastUserContent r) = true →
        resolvedTag db.users r.userToken = "trusted") ∧
      e.apiKey ≠ "" ∧
      ((r.model = some "enhanced" ∨ r.model = some "pro") →
        lookupUser db.users r.userToken ≠ none) ∧
      (r.model = some "enhanced" →
        quotaNonposEnhanced (lookupUser db.users r.userToken) = false) ∧
      (r.model = some "pro" → quotaNonposPro (lookupUser db.users r.userToken) = false) ∧
      b.ok = true ∧ b.hasBody = true := by
  unfold chatBody at h
  split_ifs at h <;> simp_all [Outcome.isSuccess]

theorem chatBody_upstream_eq (e : Env) (r : ChatRequest) (b : BackendResponse) (db : DB)
    (hup : b.ok = false ∨ b.hasBody = false)
    (hsp : (chatBody e r b db).sentPayload.isSome = true) :
    chatBody e r b db = ⟨Outcome.upstreamError, db, some (mkPayload e r db)⟩ := by
  have hup2 : (!b.ok || !b.hasBody) = true := by
    rcases hup with h | h <;> simp [h]
  unfold chatBody at hsp ⊢
  split_ifs at hsp ⊢ <;> simp_all

theorem chatBody_ip_requests (e : Env) (r : ChatRequest) (b : BackendResponse) (db : DB) :
    (chatBody e r b db).db.ip_requests = db.ip_requests := by
  unfold chatBody
  split_ifs <;> rfl

theorem chatBody_ip_rules (e : Env) (r : ChatRequest) (b : BackendResponse) (db : DB) :
    (chatBody e r b db).db.ip_rules = db.ip_rules := by
  unfold chatBody
  split_ifs <;> rfl

theorem chatMessage_ip_rules (e : Env) (r : ChatRequest) (b : BackendResponse) (db : DB) :
    (chatMessage e r b db).db.ip_rules = db.ip_rules := by
  unfold chatMessage
  rcases hA : checkIpRulesStep e.today r.ip db with ⟨o, db1⟩
  obtain ⟨q, hq⟩ : ∃ q, db1 = { db with ip_requests := q } := by
    have h2 := checkIpRulesStep_snd e.today r.ip db
    rw [hA] at h2
    exact h2
  cases o with
  | none => simpa [hq] using chatBody_ip_rules e r b db1
  | some o => simp [hq]

/-! ### Quota bookkeeping lemmas -/

theorem find?_token_map (users : List UserRow) (f : UserRow → UserRow)
    (hf : ∀ u, (f u).token = u.token) (tk : String) :
    (users.map f).find? (fun u => u.token == tk)
      = (users.find? (fun u => u.token == tk)).map f := by
  have hp : ((fun u : UserRow => u.token == tk) ∘ f) = (fun u : UserRow => u.token == tk) := by
    funext u
    simp [Function.comp, hf]
  rw [List.find?_map, hp]

theorem quotaCommit_enhanced (r : ChatRequest) (u : UserRow) (users : List UserRow)
    (hm : r.model = some "enhanced") :
    quotaCommit r (some u) users = users.map (fun v =>
      if v.user_id == u.user_id then { v with quota_enhanced := u.quota_enhanced - 1 } else v) := by
  have h1 : ((some "enhanced" : Option String) == some "enhanced") = true := by decide
  simp only [quotaCommit, hm, h1, if_true]

theorem quotaCommit_pro (r : ChatRequest) (u : UserRow) (users : List UserRow)
    (hm : r.model = some "pro") :
    quotaCommit r (some u) users = users.map (fun v =>
      if v.user_id == u.user_id then { v with quota_pro := u.quota_pro - 1 } else v) := by
  have h1 : ((some "pro" : Option String) == some "enhanced") = false := by decide
  have h2 : ((some "pro" : Option String) == some "pro") = true := by decide
  simp only [quotaCommit, hm, h1, h2, if_true, Bool.false_eq_true, if_false]

theorem quotaByToken_quotaCommit (r : ChatRequest) (users : List UserRow)
    (tk tier : String) (u : UserRow)
    (hne : (tk == "") = false) (htier : tier = "enhanced" ∨ tier = "pro")
    (hm : r.model = some tier) (htok : r.userToken = some tk)
    (hfind : users.find? (fun x => x.token == tk) = some u) :
    quotaByToken (quotaCommit r (lookupUser users r.userToken) users) tk tier
      = some (tierQuota tier u - 1) := by
  have hlook : lookupUser users r.userToken = some u := by
    simp [lookupUser, htok, hne, hfind]
  rcases htier with htier | htier <;> subst htier
  · rw [hlook, quotaCommit_enhanced r u users hm]
    unfold quotaByToken
    rw [find?_token_map _ _ (fun v => by split <;> rfl), hfind]
    simp [tierQuota]
  · rw [hlook, quotaCommit_pro r u users hm]
    unfold quotaByToken
    rw [find?_token_map _ _ (fun v => by split <;> rfl), hfind]
    have h1 : (("pro" : String) == "enhanced") = false := by decide
    simp [tierQuota, h1]

/-! ### Projections of the success tail -/

theorem successResult_users (e : Env) (r : ChatRequest) (b : BackendResponse) (db : DB) :
    (successResult e r b db).db.users
      = quotaCommit r (lookupUser db.users r.userToken) db.users := rfl

theorem successResult_messages (e : Env) (r : ChatRequest) (b : BackendResponse) (db : DB) :
    (successResult e r b db).db.messages
      = messagesCommit e (jsOr r.conversationId e.freshConvId)
          (if checkSensitive db.sensitive_words (runStream b.events).content then refusalText
            else (runStream b.events).content)
          (lastUserContent r) (runStream b.events).usage db.messages := rfl

theorem successResult_audit (e : Env) (r : ChatRequest) (b : BackendResponse) (db : DB) :
    (successResult e r b db).db.audit_logs = db.audit_logs ++
      [⟨e.freshAuditId, (lookupUser db.users r.userToken).map (fun u => u.user_id), r.ip,
        (r.clientUA).getD "", "chat", (lastUserContent r).take 120, e.latencyMs⟩] := rfl

theorem successResult_daily (e : Env) (r : ChatRequest) (b : BackendResponse) (db : DB) :
    (successResult e r b db).db.metrics_daily
      = bumpDaily e.today e.latencyMs (runStream b.events).usage.total_tokens
          db.metrics_daily := rfl

theorem successResult_convs (e : Env) (r : ChatRequest) (b : BackendResponse) (db : DB) :
    (successResult e r b db).db.conversations
      = convCommit e r ((lookupUser db.users r.userToken).map (fun u => u.user_id))
          (jsOr r.conversationId e.freshConvId) db.conversations := rfl

theorem successResult_payload (e : Env) (r : ChatRequest) (b : BackendResponse) (db : DB) :
    (successResult e r b db).sentPayload = some (mkPayload e r db) := rfl

theorem successResult_outcome_events (e : Env) (r : ChatRequest) (b : BackendResponse) (db : DB) :
    ∃ qe qp, (successResult e r b db).outcome = Outcome.success
      ((if checkSensitive db.sensitive_words (runStream b.events).content
          then (runStream b.events).events ++ [OutEvent.replace refusalText]
          else (runStream b.events).events) ++
        [OutEvent.terminal (runStream b.events).usage.input_tokens
          (runStream b.events).usage.output_tokens (runStream b.events).usage.total_tokens
          qe qp]) :=
  ⟨_, _, rfl⟩

/-! ### Concrete fixtures -/

/-- A concrete environment for concrete runs. -/
def sampleEnv : Env :=
  ⟨"k", "gpt-4o-mini", 10, 5, "2026-10-11", "ts", 5, "conv1", "mu1", "ma1", "log1", 100⟩

/-- A concrete anonymous request for the normal tier. -/
def guestReq : ChatRequest :=
  ⟨"9.9.9.9", [⟨"user", "hi"⟩], none, none, none, none, none, none, none, none, none, none⟩

/-- A concrete healthy backend stream. -/
def okBackend : BackendResponse :=
  ⟨true, true, [StreamEvent.delta "he", StreamEvent.completed (some ⟨3, 4, 7⟩),
    StreamEvent.done]⟩

/-- A concrete failing backend reply (non-success status). -/
def badBackend : BackendResponse := ⟨false, true, []⟩

/-- The empty store. -/
def emptyDB : DB := ⟨[], [], [], [], [], [], [], [], [], [], [], [], []⟩

/-- A concrete logged-in user with premium quota left. -/
def sampleUser : UserRow := ⟨"u1", "tok1", none, "CN", "", 3, 2⟩

/-! ### Claim theorems -/

/-- C3: a chat turn whose latest user message matches a moderation word
and whose identity does not carry the `trusted` tag (guests included) is
rejected before any backend call, with no messages persisted, no user
(quota) row changed and no conversation created. -/
theorem chatpro_c3_input_rejected (e : Env) (r : ChatRequest) (b : BackendResponse) (db : DB)
    (hflag : checkSensitive db.sensitive_words (lastUserContent r) = true)
    (htag : resolvedTag db.users r.userToken ≠ "trusted") :
    (chatMessage e r b db).sentPayload = none ∧
      (chatMessage e r b db).outcome.isSuccess = false ∧
      (chatMessage e r b db).db.messages = db.messages ∧
      (chatMessage e r b db).db.users = db.users ∧
      (chatMessage e r b db).db.conversations = db.conversations := by
  rcases hA : checkIpRulesStep e.today r.ip db with ⟨o, db1⟩
  cases o with
  | some o =>
    have hR := chatMessage_eq_reject e r b db o db1 hA
    obtain ⟨ho, hdb⟩ := checkIpRulesStep_reject e.today r.ip db o db1 hA
    subst hdb
    rw [hR]
    refine ⟨rfl, ?_, rfl, rfl, rfl⟩
    rcases ho with h | h <;> subst h <;> rfl
  | none =>
    have hB := chatMessage_eq_body e r b db db1 hA
    obtain ⟨q, hq1⟩ := checkIpRulesStep_snd e.today r.ip db
    rw [hA] at hq1
    have hq2 : db1 = { db with ip_requests := q } := hq1
    subst hq2
    rw [hB]
    unfold chatBody
    split_ifs with h1 h2 h3 h4 h5 h6
    · exact ⟨rfl, rfl, rfl, rfl, rfl⟩
    all_goals exact absurd (by simp [hflag, htag]) h1

/-- C3 witness: a guest whose message contains the listed word `bad`. -/
theorem chatpro_c3_witness :
    (chatMessage sampleEnv { guestReq with messages := [⟨"user", "so bad"⟩] } okBackend
        { emptyDB with sensitive_words := ["bad"] }).sentPayload = none ∧
      (chatMessage sampleEnv { guestReq with messages := [⟨"user", "so bad"⟩] } okBackend
        { emptyDB with sensitive_words := ["bad"] }).outcome.isSuccess = false ∧
      (chatMessage sampleEnv { guestReq with messages := [⟨"user", "so bad"⟩] } okBackend
        { emptyDB with sensitive_words := ["bad"] }).db.messages = [] ∧
      (chatMessage sampleEnv { guestReq with messages := [⟨"user", "so bad"⟩] } okBackend
        { emptyDB with sensitive_words := ["bad"] }).db.users = [] ∧
      (chatMessage sampleEnv { guestReq with messages := [⟨"user", "so bad"⟩] } okBackend
        { emptyDB with sensitive_words := ["bad"] }).db.conversations = [] :=
  chatpro_c3_input_rejected sampleEnv { guestReq with messages := [⟨"user", "so bad"⟩] }
    okBackend { emptyDB with sensitive_words := ["bad"] } (by decide) (by decide)

theorem currentCount_bumpIp (rows : List IpRequestRow) (ip date : String) :
    currentCount (bumpIp ip date rows) ip date = currentCount rows ip date + 1 := by
  unfold bumpIp
  cases hf : rows.find? (fun x => x.ip == ip && x.date == date) with
  | none =>
    unfold currentCount
    rw [List.find?_append, hf]
    simp [currentCount, hf]
  | some row =>
    have hp : ((fun x : IpRequestRow => x.ip == ip && x.date == date) ∘
        (fun x => if x.ip == ip && x.date == date
          then (⟨ip, date, row.count + 1⟩ : IpRequestRow) else x))
        = (fun x : IpRequestRow => x.ip == ip && x.date == date) := by
      funext x
      by_cases h : (x.ip == ip && x.date == date) = true
      · simp [Function.comp, h]
      · simp only [Function.comp]
        rw [if_neg h]
    unfold currentCount
    rw [List.find?_map, hp, hf]
    have hrow := List.find?_some hf
    simp only [Bool.and_eq_true, beq_iff_eq] at hrow
    simp [hrow.1, hrow.2]

theorem bumpIp_of_absent (rows : List IpRequestRow) (ip date : String)
    (hf : rows.find? (fun x => x.ip == ip && x.date == date) = none) :
    bumpIp ip date rows = rows ++ [⟨ip, date, 1⟩] := by
  unfold bumpIp
  rw [hf]

/-- C5 counterexample: an admitted, fully successful guest turn from an
address with no configured rule leaves the `ip_requests` table empty —
no `(ip, date)` row is created or incremented. -/
theorem chatpro_c5_counterexample :
    (chatMessage sampleEnv guestReq okBackend emptyDB).outcome.isSuccess = true ∧
      (chatMessage sampleEnv guestReq okBackend emptyDB).db.ip_requests = [] := by
  exact ⟨by decide, by decide⟩

/-- C5 (amended): the `(ip, date)` request counter is incremented by
exactly one per admitted request — created with count 1 if absent —
only when the calling address has a `limit` rule with a truthy limit
value; an admitted request from an address with no limit rule, or with
a null or zero limit value, leaves the counter table untouched.  In the
incremented case this holds regardless of the turn's eventual outcome. -/
theorem chatpro_c5_ip_counter (e : Env) (r : ChatRequest) (b : BackendResponse) (db : DB)
    (hnb : db.ip_rules.any (fun x => x.ip == r.ip && x.rtype == "block") = false) :
    (∀ rule l, db.ip_rules.find? (fun x => x.ip == r.ip && x.rtype == "limit") = some rule →
       rule.limit_value = some l → l ≠ 0 →
       currentCount db.ip_requests r.ip e.today < l →
       currentCount (chatMessage e r b db).db.ip_requests r.ip e.today
         = currentCount db.ip_requests r.ip e.today + 1) ∧
      (db.ip_rules.find? (fun x => x.ip == r.ip && x.rtype == "limit") = none →
        (chatMessage e r b db).db.ip_requests = db.ip_requests) ∧
      (∀ rule, db.ip_rules.find? (fun x => x.ip == r.ip && x.rtype == "limit") = some rule →
        (rule.limit_value = none ∨ rule.limit_value = some 0) →
        (chatMessage e r b db).db.ip_requests = db.ip_requests) := by
  refine ⟨?_, ?_, ?_⟩
  · intro rule l hrule hlv hl0 hcur
    have h0 : (l == 0) = false := by simp [hl0]
    have hstep : checkIpRulesStep e.today r.ip db
        = (none, { db with ip_requests := bumpIp r.ip e.today db.ip_requests }) := by
      unfold checkIpRulesStep
      rw [hnb, hrule]
      dsimp only
      rw [hlv]
      dsimp only
      rw [h0]
      simp only [Bool.false_eq_true, if_false]
      rw [if_neg (by omega : ¬ l ≤ currentCount db.ip_requests r.ip e.today)]
    rw [chatMessage_eq_body e r b db _ hstep, chatBody_ip_requests]
    exact currentCount_bumpIp db.ip_requests r.ip e.today
  · intro hnone
    have hstep : checkIpRulesStep e.today r.ip db = (none, db) := by
      unfold checkIpRulesStep
      rw [hnb, hnone]
      rfl
    rw [chatMessage_eq_body e r b db db hstep, chatBody_ip_requests]
  · intro rule hrule hlv
    rcases hlv with hlv | hlv
    · have hstep : checkIpRulesStep e.today r.ip db = (none, db) := by
        unfold checkIpRulesStep
        rw [hnb, hrule]
        dsimp only
        rw [hlv]
        rfl
      rw [chatMessage_eq_body e r b db db hstep, chatBody_ip_requests]
    · have hstep : checkIpRulesStep e.today r.ip db = (none, db) := by
        unfold checkIpRulesStep
        rw [hnb, hrule]
        dsimp only
        rw [hlv]
        rfl
      rw [chatMessage_eq_body e r b db db hstep, chatBody_ip_requests]

/-- C5 witness: with a limit rule of 3 for the address and no counter
row, an admitted turn creates today's row at count 1; without any rule
the table is untouched. -/
theorem chatpro_c5_witness :
    currentCount (chatMessage sampleEnv guestReq okBackend
        { emptyDB with ip_rules := [⟨"9.9.9.9", "limit", some 3⟩] }).db.ip_requests
        "9.9.9.9" "2026-10-11"
      = currentCount ({ emptyDB with
          ip_rules := [⟨"9.9.9.9", "limit", some 3⟩] } : DB).ip_requests
          "9.9.9.9" "2026-10-11" + 1 :=
  (chatpro_c5_ip_counter sampleEnv guestReq okBackend
    { emptyDB with ip_rules := [⟨"9.9.9.9", "limit", some 3⟩] } (by decide)).1
    ⟨"9.9.9.9", "limit", some 3⟩ 3 (by decide) (by decide) (by decide) (by decide)

/-- C10: a turn whose requested model is neither `"enhanced"` nor
`"pro"` (unknown strings and missing values included) performs no quota
pre-check — none of the login/quota rejections can occur — and no quota
decrement (the user table is unchanged), and when no model mapping row
exists for the looked-up tier the backend call carries the configured
normal-tier model. -/
theorem chatpro_c10_nonpremium (e : Env) (r : ChatRequest) (b : BackendResponse) (db : DB)
    (hme : r.model ≠ some "enhanced") (hmp : r.model ≠ some "pro") :
    (chatMessage e r b db).db.users = db.users ∧
      (chatMessage e r b db).outcome ≠ Outcome.rejectedNeedLogin ∧
      (chatMessage e r b db).outcome ≠ Outcome.rejectedQuotaEnhanced ∧
      (chatMessage e r b db).outcome ≠ Outcome.rejectedQuotaPro ∧
      (db.models.find? (fun m => m.tier == jsOr r.model "normal") = none →
        ∀ p, (chatMessage e r b db).sentPayload = some p → p.model = e.modelNormal) := by
  have hbe : (r.model == some "enhanced") = false := by
    simp [hme]
  have hbp : (r.model == some "pro") = false := by
    simp [hmp]
  rcases hA : checkIpRulesStep e.today r.ip db with ⟨o, db1⟩
  cases o with
  | some o =>
    have hR := chatMessage_eq_reject e r b db o db1 hA
    obtain ⟨ho, hdb⟩ := checkIpRulesStep_reject e.today r.ip db o db1 hA
    subst hdb
    rw [hR]
    refine ⟨rfl, ?_, ?_, ?_, ?_⟩
    · rcases ho with h | h <;> subst h <;> simp
    · rcases ho with h | h <;> subst h <;> simp
    · rcases ho with h | h <;> subst h <;> simp
    · intro hfind p hsp
      exact Option.noConfusion hsp
  | none =>
    have hB := chatMessage_eq_body e r b db db1 hA
    obtain ⟨q, hq1⟩ := checkIpRulesStep_snd e.today r.ip db
    rw [hA] at hq1
    have hq2 : db1 = { db with ip_requests := q } := hq1
    subst hq2
    rw [hB]
    unfold chatBody
    split_ifs with h1 h2 h3 h4 h5 h6
    · exact ⟨rfl, by simp, by simp, by simp, fun _ p hsp => False.elim hsp⟩
    · exact ⟨rfl, by simp, by simp, by simp, fun _ p hsp => False.elim hsp⟩
    · exact absurd h3 (by simp [hbe, hbp])
    · exact absurd h4 (by simp [hbe])
    · exact absurd h5 (by simp [hbp])
    · refine ⟨rfl, by simp, by simp, by simp, ?_⟩
      intro hfind p hsp
      have hp : p = mkPayload e r { db with ip_requests := q } := by
        exact (Option.some.inj hsp).symm
      subst hp
      show resolveBackendModel e r { db with ip_requests := q } = e.modelNormal
      unfold resolveBackendModel
      dsimp only
      rw [hfind]
      rfl
    · have hu : (successResult e r b { db with ip_requests := q }).db.users
          = quotaCommit r (lookupUser db.users r.userToken) db.users := rfl
      have husers : quotaCommit r (lookupUser db.users r.userToken) db.users = db.users := by
        unfold quotaCommit
        cases lookupUser db.users r.userToken with
        | none => rfl
        | some u => rw [hbe, hbp]; rfl
      obtain ⟨qe, qp, hout⟩ := successResult_outcome_events e r b { db with ip_requests := q }
      refine ⟨hu.trans husers, ?_, ?_, ?_, ?_⟩
      · rw [hout]; simp
      · rw [hout]; simp
      · rw [hout]; simp
      · intro hfind p hsp
        have hsp2 : (successResult e r b { db with ip_requests := q }).sentPayload
            = some (mkPayload e r { db with ip_requests := q }) := rfl
        rw [hsp2] at hsp
        have hp : p = mkPayload e r { db with ip_requests := q } :=
          (Option.some.inj hsp).symm
        subst hp
        show resolveBackendModel e r { db with ip_requests := q } = e.modelNormal
        unfold resolveBackendModel
        dsimp only
        rw [hfind]
        rfl

/-- C10 witness: a logged-in user requesting the unknown model `"foo"`
with no model mapping rows at all. -/
theorem chatpro_c10_witness :
    (chatMessage sampleEnv { guestReq with model := some "foo", userToken := some "tok1" }
        okBackend { emptyDB with users := [sampleUser] }).db.users = [sampleUser] ∧
      (chatMessage sampleEnv { guestReq with model := some "foo", userToken := some "tok1" }
        okBackend { emptyDB with users := [sampleUser] }).outcome ≠ Outcome.rejectedNeedLogin ∧
      (chatMessage sampleEnv { guestReq with model := some "foo", userToken := some "tok1" }
        okBackend { emptyDB with users := [sampleUser] }).outcome ≠ Outcome.rejectedQuotaEnhanced ∧
      (chatMessage sampleEnv { guestReq with model := some "foo", userToken := some "tok1" }
        okBackend { emptyDB with users := [sampleUser] }).outcome ≠ Outcome.rejectedQuotaPro ∧
      (({ emptyDB with users := [sampleUser] } : DB).models.find?
          (fun m => m.tier == jsOr (some "foo") "normal") = none →
        ∀ p, (chatMessage sampleEnv { guestReq with model := some "foo", userToken := some "tok1" }
          okBackend { emptyDB with users := [sampleUser] }).sentPayload = some p →
          p.model = sampleEnv.modelNormal) :=
  chatpro_c10_nonpremium sampleEnv
    { guestReq with model := some "foo", userToken := some "tok1" } okBackend
    { emptyDB with users := [sampleUser] } (by decide) (by decide)

theorem runTurns_cons (t : Turn) (rest : List Turn) (db : DB) :
    runTurns (t :: rest) db
      = ((chatMessage t.env t.req t.backend db) ::
          (runTurns rest (chatMessage t.env t.req t.backend db).db).1,
         (runTurns rest (chatMessage t.env t.req t.backend db).db).2) := rfl

theorem chatMessage_success_quota (e : Env) (r : ChatRequest) (b : BackendResponse) (db : DB)
    (tk tier : String) (u : UserRow)
    (htier : tier = "enhanced" ∨ tier = "pro")
    (hm : r.model = some tier) (htok : r.userToken = some tk) (htkne : tk ≠ "")
    (hfind : db.users.find? (fun x => x.token == tk) = some u)
    (hs : (chatMessage e r b db).outcome.isSuccess = true) :
    quotaByToken (chatMessage e r b db).db.users tk tier = some (tierQuota tier u - 1) ∧
      0 < tierQuota tier u := by
  have hne : (tk == "") = false := by simp [htkne]
  rcases hA : checkIpRulesStep e.today r.ip db with ⟨o, db1⟩
  cases o with
  | some o =>
    have hR := chatMessage_eq_reject e r b db o db1 hA
    obtain ⟨ho, hdb⟩ := checkIpRulesStep_reject e.today r.ip db o db1 hA
    rw [hR] at hs
    rcases ho with h | h <;> subst h <;> simp [Outcome.isSuccess] at hs
  | none =>
    have hB := chatMessage_eq_body e r b db db1 hA
    obtain ⟨q, hq1⟩ := checkIpRulesStep_snd e.today r.ip db
    rw [hA] at hq1
    have hq2 : db1 = { db with ip_requests := q } := hq1
    subst hq2
    rw [hB] at hs ⊢
    have hs0 := hs
    have hEq := chatBody_success_eq e r b _ hs0
    rw [hEq]
    have hlook : lookupUser ({ db with ip_requests := q } : DB).users r.userToken = some u := by
      simp [lookupUser, htok, hne, hfind]
    constructor
    · rw [successResult_users]
      exact quotaByToken_quotaCommit r _ tk tier u hne htier hm htok hfind
    · have hg := chatBody_success_guards e r b { db with ip_requests := q } hs0
      rcases htier with ht | ht <;> subst ht
      · have h4 := hg.2.2.2.1 hm
        rw [hlook] at h4
        simp only [quotaNonposEnhanced, decide_eq_false_iff_not, not_le] at h4
        simpa [tierQuota] using h4
      · have h5 := hg.2.2.2.2.1 hm
        rw [hlook] at h5
        simp only [quotaNonposPro, decide_eq_false_iff_not, not_le] at h5
        have hbe : (("pro" : String) == "enhanced") = false := by decide
        simpa [tierQuota, hbe] using h5

/-- C1: for any identity and premium tier, under sequential execution,
(1) a turn requested while the tier's counter is non-positive is
rejected with no backend call and no change to the user table; and
(2) after a sequence of N turns for that tier and identity that all end
in success, the counter equals its initial value minus N, and N is at
most the (non-negative) initial value, so the counter never becomes
negative. -/
theorem chatpro_c1_quota_sequential (tier : String)
    (htier : tier = "enhanced" ∨ tier = "pro") :
    (∀ (e : Env) (r : ChatRequest) (b : BackendResponse) (db : DB) (tk : String) (u : UserRow),
       r.userToken = some tk → tk ≠ "" → r.model = some tier →
       db.users.find? (fun x => x.token == tk) = some u → tierQuota tier u ≤ 0 →
       (chatMessage e r b db).sentPayload = none ∧
         (chatMessage e r b db).outcome.isSuccess = false ∧
         (chatMessage e r b db).db.users = db.users) ∧
    (∀ (ts : List Turn) (db : DB) (tk : String) (q0 : Int),
       tk ≠ "" → 0 ≤ q0 →
       (∀ t ∈ ts, t.req.model = some tier ∧ t.req.userToken = some tk) →
       (∀ res ∈ (runTurns ts db).1, res.outcome.isSuccess = true) →
       quotaByToken db.users tk tier = some q0 →
       quotaByToken (runTurns ts db).2.users tk tier = some (q0 - ts.length) ∧
         (ts.length : Int) ≤ q0) := by
  constructor
  · intro e r b db tk u htok htkne hm hfind hq
    have hne : (tk == "") = false := by simp [htkne]
    rcases hA : checkIpRulesStep e.today r.ip db with ⟨o, db1⟩
    cases o with
    | some o =>
      have hR := chatMessage_eq_reject e r b db o db1 hA
      obtain ⟨ho, hdb⟩ := checkIpRulesStep_reject e.today r.ip db o db1 hA
      subst hdb
      rw [hR]
      refine ⟨rfl, ?_, rfl⟩
      rcases ho with h | h <;> subst h <;> rfl
    | none =>
      have hB := chatMessage_eq_body e r b db db1 hA
      obtain ⟨q, hq1⟩ := checkIpRulesStep_snd e.today r.ip db
      rw [hA] at hq1
      have hq2 : db1 = { db with ip_requests := q } := hq1
      subst hq2
      rw [hB]
      have hlook : lookupUser ({ db with ip_requests := q } : DB).users r.userToken = some u := by
        simp [lookupUser, htok, hne, hfind]
      unfold chatBody
      split_ifs with h1 h2 h3 h4 h5 h6
      · exact ⟨rfl, rfl, rfl⟩
      · exact ⟨rfl, rfl, rfl⟩
      · exact ⟨rfl, rfl, rfl⟩
      · exact ⟨rfl, rfl, rfl⟩
      · exact ⟨rfl, rfl, rfl⟩
      all_goals {
        exfalso
        rcases htier with ht | ht
        · subst ht
          have hq2 : u.quota_enhanced ≤ 0 := by simpa [tierQuota] using hq
          exact h4 (by simp [hm, hlook, quotaNonposEnhanced, hq2])
        · subst ht
          have hbe : (("pro" : String) == "enhanced") = false := by decide
          have hq2 : u.quota_pro ≤ 0 := by simpa [tierQuota, hbe] using hq
          exact h5 (by simp [hm, hlook, quotaNonposPro, hq2])
      }
  · intro ts
    induction ts with
    | nil =>
      intro db tk q0 htkne hq0 hts hsucc hq
      refine ⟨by simpa [runTurns] using hq, by simpa using hq0⟩
    | cons t rest ih =>
      intro db tk q0 htkne hq0 hts hsucc hq
      obtain ⟨hm, htok⟩ := hts t (List.mem_cons_self t rest)
      obtain ⟨u, hfind, htq⟩ : ∃ u, db.users.find? (fun x => x.token == tk) = some u ∧
          tierQuota tier u = q0 := by
        unfold quotaByToken at hq
        cases hf : db.users.find? (fun x => x.token == tk) with
        | none => rw [hf] at hq; simp at hq
        | some u => rw [hf] at hq; exact ⟨u, rfl, by simpa using hq⟩
      have hsucc0 : (chatMessage t.env t.req t.backend db).outcome.isSuccess = true :=
        hsucc _ (by rw [runTurns_cons]; exact List.mem_cons_self _ _)
      have hstep := chatMessage_success_quota t.env t.req t.backend db tk tier u htier hm
        htok htkne hfind hsucc0
      have hq1 : quotaByToken (chatMessage t.env t.req t.backend db).db.users tk tier
          = some (q0 - 1) := by rw [hstep.1, htq]
      have hpos : 0 < q0 := htq ▸ hstep.2
      have hrest := ih (chatMessage t.env t.req t.backend db).db tk (q0 - 1) htkne
        (by omega)
        (fun t2 ht2 => hts t2 (List.mem_cons_of_mem t ht2))
        (fun res hres => hsucc res (by rw [runTurns_cons]; exact List.mem_cons_of_mem _ hres))
        hq1
      rw [runTurns_cons]
      constructor
      · rw [hrest.1]
        congr 1
        simp only [List.length_cons]
        push_cast
        ring
      · have h2 := hrest.2
        simp only [List.length_cons]
        push_cast at h2 ⊢
        omega

/-- C1 witness: one successful enhanced turn takes the counter from 3
to 2, and a user with counter 0 is rejected without a backend call. -/
theorem chatpro_c1_witness :
    (quotaByToken (runTurns [⟨sampleEnv,
        { guestReq with model := some "enhanced", userToken := some "tok1" }, okBackend⟩]
        { emptyDB with users := [sampleUser] }).2.users "tok1" "enhanced"
        = some (3 - ([⟨sampleEnv,
            { guestReq with model := some "enhanced", userToken := some "tok1" },
            okBackend⟩] : List Turn).length) ∧
      ((([⟨sampleEnv, { guestReq with model := some "enhanced", userToken := some "tok1" },
          okBackend⟩] : List Turn).length : Int) ≤ 3)) ∧
      ((chatMessage sampleEnv
          { guestReq with model := some "enhanced", userToken := some "tok1" } okBackend
          { emptyDB with users := [{ sampleUser with quota_enhanced := 0 }] }).sentPayload
          = none ∧
        (chatMessage sampleEnv
          { guestReq with model := some "enhanced", userToken := some "tok1" } okBackend
          { emptyDB with users := [{ sampleUser with quota_enhanced := 0 }] }).outcome.isSuccess
          = false ∧
        (chatMessage sampleEnv
          { guestReq with model := some "enhanced", userToken := some "tok1" } okBackend
          { emptyDB with users := [{ sampleUser with quota_enhanced := 0 }] }).db.users
          = [{ sampleUser with quota_enhanced := 0 }]) :=
  ⟨(chatpro_c1_quota_sequential "enhanced" (Or.inl rfl)).2
      [⟨sampleEnv, { guestReq with model := some "enhanced", userToken := some "tok1" },
        okBackend⟩]
      { emptyDB with users := [sampleUser] } "tok1" 3 (by decide) (by decide)
      (by decide) (by decide) (by decide),
    (chatpro_c1_quota_sequential "enhanced" (Or.inl rfl)).1 sampleEnv
      { guestReq with model := some "enhanced", userToken := some "tok1" } okBackend
      { emptyDB with users := [{ sampleUser with quota_enhanced := 0 }] } "tok1"
      { sampleUser with quota_enhanced := 0 } (by decide) (by decide) (by decide)
      (by decide) (by decide)⟩

/-- C2: when the backend responds with a non-success status or no
body, a turn that reached the backend call ends as the single
upstream-error outcome with no message rows, no conversation row, no
user (quota) change, no audit row and no metrics update; the store is
exactly the post-admission state, so the admission counter increment
stands. -/
theorem chatpro_c2_upstream_atomic (e : Env) (r : ChatRequest) (b : BackendResponse) (db : DB)
    (hup : b.ok = false ∨ b.hasBody = false)
    (hsp : (chatMessage e r b db).sentPayload.isSome = true) :
    (chatMessage e r b db).outcome = Outcome.upstreamError ∧
      (chatMessage e r b db).db.messages = db.messages ∧
      (chatMessage e r b db).db.conversations = db.conversations ∧
      (chatMessage e r b db).db.users = db.users ∧
      (chatMessage e r b db).db.audit_logs = db.audit_logs ∧
      (chatMessage e r b db).db.metrics_daily = db.metrics_daily ∧
      checkIpRulesStep e.today r.ip db = (none, (chatMessage e r b db).db) := by
  rcases hA : checkIpRulesStep e.today r.ip db with ⟨o, db1⟩
  cases o with
  | some o =>
    have hR := chatMessage_eq_reject e r b db o db1 hA
    rw [hR] at hsp
    simp at hsp
  | none =>
    have hB := chatMessage_eq_body e r b db db1 hA
    obtain ⟨q, hq1⟩ := checkIpRulesStep_snd e.today r.ip db
    rw [hA] at hq1
    have hq2 : db1 = { db with ip_requests := q } := hq1
    subst hq2
    rw [hB] at hsp ⊢
    have hBody := chatBody_upstream_eq e r b _ hup hsp
    rw [hBody]
    refine ⟨rfl, rfl, rfl, rfl, rfl, rfl, ?_⟩
    dsimp only

/-- C2 witness: a backend returning a non-success status. -/
theorem chatpro_c2_witness :
    (chatMessage sampleEnv guestReq badBackend emptyDB).outcome = Outcome.upstreamError ∧
      (chatMessage sampleEnv guestReq badBackend emptyDB).db.messages = [] ∧
      (chatMessage sampleEnv guestReq badBackend emptyDB).db.conversations = [] ∧
      (chatMessage sampleEnv guestReq badBackend emptyDB).db.users = [] ∧
      (chatMessage sampleEnv guestReq badBackend emptyDB).db.audit_logs = [] ∧
      (chatMessage sampleEnv guestReq badBackend emptyDB).db.metrics_daily = [] ∧
      checkIpRulesStep sampleEnv.today guestReq.ip emptyDB
        = (none, (chatMessage sampleEnv guestReq badBackend emptyDB).db) :=
  chatpro_c2_upstream_atomic sampleEnv guestReq badBackend emptyDB (Or.inl rfl) (by decide)

theorem totalRequestsOf_bumpDaily (rows : List DailyMetricRow) (today : String)
    (lat tok : Nat) :
    totalRequestsOf (bumpDaily today lat tok rows) today
      = totalRequestsOf rows today + 1 := by
  unfold bumpDaily
  cases hf : rows.find? (fun x => x.date == today) with
  | none =>
    unfold totalRequestsOf
    rw [List.find?_append, hf]
    simp
  | some row =>
    have hp : ((fun x : DailyMetricRow => x.date == today) ∘
        (fun x => if x.date == today
          then (⟨today, row.total_requests + 1,
              jsRound (row.avg_latency * row.total_requests + lat) (row.total_requests + 1),
              row.token_total + tok, max row.concurrent_peak 1⟩ : DailyMetricRow)
          else x)) = (fun x : DailyMetricRow => x.date == today) := by
      funext x
      by_cases hx : (x.date == today) = true
      · simp [Function.comp, hx]
      · simp only [Function.comp]
        rw [if_neg hx]
    unfold totalRequestsOf
    rw [List.find?_map, hp, hf]
    have hrow := List.find?_some hf
    simp only [beq_iff_eq] at hrow
    simp [hrow]

/-- C8 (amended): metrics update and exactly one audit row — content
truncated to 120 characters of the latest user message — happen for
every turn ending in success (moderation-replacement included); a turn
ending in the upstream-error outcome performs no metrics update and
appends no audit row. -/
theorem chatpro_c8_metrics_audit (e : Env) (r : ChatRequest) (b : BackendResponse) (db : DB) :
    ((chatMessage e r b db).outcome.isSuccess = true →
      (chatMessage e r b db).db.audit_logs = db.audit_logs ++
        [⟨e.freshAuditId, (lookupUser db.users r.userToken).map (fun u => u.user_id), r.ip,
          (r.clientUA).getD "", "chat", (lastUserContent r).take 120, e.latencyMs⟩] ∧
      totalRequestsOf (chatMessage e r b db).db.metrics_daily e.today
        = totalRequestsOf db.metrics_daily e.today + 1) ∧
    ((chatMessage e r b db).outcome = Outcome.upstreamError →
      (chatMessage e r b db).db.audit_logs = db.audit_logs ∧
      (chatMessage e r b db).db.metrics_daily = db.metrics_daily) := by
  rcases hA : checkIpRulesStep e.today r.ip db with ⟨o, db1⟩
  cases o with
  | some o =>
    have hR := chatMessage_eq_reject e r b db o db1 hA
    obtain ⟨ho, hdb⟩ := checkIpRulesStep_reject e.today r.ip db o db1 hA
    subst hdb
    rw [hR]
    constructor
    · intro h
      rcases ho with h2 | h2 <;> subst h2 <;> simp [Outcome.isSuccess] at h
    · intro h
      rcases ho with h2 | h2 <;> subst h2 <;> simp at h
  | none =>
    have hB := chatMessage_eq_body e r b db db1 hA
    obtain ⟨q, hq1⟩ := checkIpRulesStep_snd e.today r.ip db
    rw [hA] at hq1
    have hq2 : db1 = { db with ip_requests := q } := hq1
    subst hq2
    rw [hB]
    constructor
    · intro h
      have hEq := chatBody_success_eq e r b _ h
      rw [hEq]
      refine ⟨successResult_audit e r b _, ?_⟩
      rw [successResult_daily]
      exact totalRequestsOf_bumpDaily _ e.today e.latencyMs _
    · intro h
      unfold chatBody at h ⊢
      split_ifs at h ⊢ <;> try exact ⟨rfl, rfl⟩
      obtain ⟨qe, qp, hout⟩ := successResult_outcome_events e r b { db with ip_requests := q }
      rw [hout] at h
      simp at h

/-- C8 counterexample: a turn ending in the upstream-error terminal
state (backend non-success past admission) appends no audit-log row and
performs no metrics update, contradicting the claim that every terminal
state does. -/
theorem chatpro_c8_counterexample :
    (chatMessage sampleEnv guestReq badBackend emptyDB).outcome = Outcome.upstreamError ∧
      (chatMessage sampleEnv guestReq badBackend emptyDB).db.audit_logs = [] ∧
      (chatMessage sampleEnv guestReq badBackend emptyDB).db.metrics_daily = [] :=
  ⟨by decide, by decide, by decide⟩

/-- C8 witness: a successful guest turn appends exactly one audit row
with the truncated user content and bumps today's request total. -/
theorem chatpro_c8_witness :
    (chatMessage sampleEnv guestReq okBackend emptyDB).db.audit_logs = [] ++
      [⟨sampleEnv.freshAuditId,
        (lookupUser ([] : List UserRow) guestReq.userToken).map (fun u => u.user_id),
        guestReq.ip, (guestReq.clientUA).getD "", "chat",
        (lastUserContent guestReq).take 120, sampleEnv.latencyMs⟩] ∧
      totalRequestsOf (chatMessage sampleEnv guestReq okBackend emptyDB).db.metrics_daily
          sampleEnv.today
        = totalRequestsOf ([] : List DailyMetricRow) sampleEnv.today + 1 :=
  (chatpro_c8_metrics_audit sampleEnv guestReq okBackend emptyDB).1 (by decide)

/-- C7: the assembled system prompt always equals the raw assembled
text hard-cut (character-wise) to the tier's configured budget, and the
budgets seeded when the `prompt_limits` table is unconfigured are 1200
for normal, 1600 for enhanced and 2000 for pro (and the missing-tier
fallback of the lookup itself is 1200). -/
theorem chatpro_c7_prompt_truncation :
    (∀ (e : Env) (r : ChatRequest) (db : DB),
       assembleSystemPrompt e r db
         = (rawSystemPrompt e r db).take (getPromptLimit db.prompt_limits r.model)) ∧
      getPromptLimit defaultPromptLimits (some "normal") = 1200 ∧
      getPromptLimit defaultPromptLimits (some "enhanced") = 1600 ∧
      getPromptLimit defaultPromptLimits (some "pro") = 2000 ∧
      getPromptLimit defaultPromptLimits none = 1200 := by
  refine ⟨?_, by decide, by decide, by decide, by decide⟩
  intro e r db
  simp only [assembleSystemPrompt]
  split_ifs with h
  · rfl
  · have hlen : (rawSystemPrompt e r db).data.length ≤ getPromptLimit db.prompt_limits r.model :=
      not_lt.mp h
    rw [String.take_eq, List.take_of_length_le hlen]

/-- A concrete backend stream whose accumulated output `axxb` contains
the listed word `xx`. -/
def flaggedBackend : BackendResponse :=
  ⟨true, true, [StreamEvent.delta "axxb", StreamEvent.completed (some ⟨3, 4, 7⟩),
    StreamEvent.done]⟩

/-- A store whose moderation list is `["xx"]`. -/
def wordsDB : DB := { emptyDB with sensitive_words := ["xx"] }

/-- C4: when the fully accumulated assistant output is flagged by the
moderation list, a successful turn emits a content-replacement event,
persists the assistant message with content equal to the fixed refusal
string, and still completes as a success: the audit row is appended,
today's request total is bumped, and for a premium tier with a resolved
identity the quota decrement still happens. -/
theorem chatpro_c4_output_replacement (e : Env) (r : ChatRequest) (b : BackendResponse)
    (db : DB)
    (hs : (chatMessage e r b db).outcome.isSuccess = true)
    (hflag : checkSensitive db.sensitive_words (runStream b.events).content = true) :
    (∃ evs, (chatMessage e r b db).outcome = Outcome.success evs ∧
        OutEvent.replace refusalText ∈ evs) ∧
      (chatMessage e r b db).db.messages.getLast? = some
        ⟨e.freshAsstMsgId, jsOr r.conversationId e.freshConvId, "assistant", refusalText,
          e.t0 + 2, (runStream b.events).usage.input_tokens,
          (runStream b.events).usage.output_tokens⟩ ∧
      (chatMessage e r b db).db.audit_logs.length = db.audit_logs.length + 1 ∧
      totalRequestsOf (chatMessage e r b db).db.metrics_daily e.today
        = totalRequestsOf db.metrics_daily e.today + 1 ∧
      (∀ (tk tier : String) (u : UserRow), (tier = "enhanced" ∨ tier = "pro") →
        r.model = some tier → r.userToken = some tk → tk ≠ "" →
        db.users.find? (fun x => x.token == tk) = some u →
        quotaByToken (chatMessage e r b db).db.users tk tier
          = some (tierQuota tier u - 1)) := by
  rcases hA : checkIpRulesStep e.today r.ip db with ⟨o, db1⟩
  cases o with
  | some o =>
    have hR := chatMessage_eq_reject e r b db o db1 hA
    obtain ⟨ho, hdb⟩ := checkIpRulesStep_reject e.today r.ip db o db1 hA
    rw [hR] at hs
    rcases ho with h | h <;> subst h <;> simp [Outcome.isSuccess] at hs
  | none =>
    have hB := chatMessage_eq_body e r b db db1 hA
    obtain ⟨q, hq1⟩ := checkIpRulesStep_snd e.today r.ip db
    rw [hA] at hq1
    have hq2 : db1 = { db with ip_requests := q } := hq1
    subst hq2
    rw [hB] at hs ⊢
    have hEq := chatBody_success_eq e r b _ hs
    rw [hEq]
    refine ⟨?_, ?_, ?_, ?_, ?_⟩
    · obtain ⟨qe, qp, hout⟩ := successResult_outcome_events e r b { db with ip_requests := q }
      refine ⟨_, hout, ?_⟩
      simp [hflag]
    · rw [successResult_messages]
      unfold messagesCommit
      rw [List.getLast?_concat]
      simp [hflag]
    · rw [successResult_audit]
      simp
    · rw [successResult_daily]
      exact totalRequestsOf_bumpDaily _ e.today e.latencyMs _
    · intro tk tier u htier hm htok htkne hfind
      have hne : (tk == "") = false := by simp [htkne]
      rw [successResult_users]
      exact quotaByToken_quotaCommit r _ tk tier u hne htier hm htok hfind

/-- C4 witness: a guest turn whose output `axxb` contains the listed
word `xx`. -/
theorem chatpro_c4_witness :
    (∃ evs, (chatMessage sampleEnv guestReq flaggedBackend wordsDB).outcome
          = Outcome.success evs ∧ OutEvent.replace refusalText ∈ evs) ∧
      (chatMessage sampleEnv guestReq flaggedBackend wordsDB).db.messages.getLast? = some
        ⟨sampleEnv.freshAsstMsgId, jsOr guestReq.conversationId sampleEnv.freshConvId,
          "assistant", refusalText, sampleEnv.t0 + 2,
          (runStream flaggedBackend.events).usage.input_tokens,
          (runStream flaggedBackend.events).usage.output_tokens⟩ ∧
      (chatMessage sampleEnv guestReq flaggedBackend wordsDB).db.audit_logs.length
        = wordsDB.audit_logs.length + 1 ∧
      totalRequestsOf (chatMessage sampleEnv guestReq flaggedBackend wordsDB).db.metrics_daily
          sampleEnv.today
        = totalRequestsOf wordsDB.metrics_daily sampleEnv.today + 1 ∧
      (∀ (tk tier : String) (u : UserRow), (tier = "enhanced" ∨ tier = "pro") →
        guestReq.model = some tier → guestReq.userToken = some tk → tk ≠ "" →
        wordsDB.users.find? (fun x => x.token == tk) = some u →
        quotaByToken (chatMessage sampleEnv guestReq flaggedBackend wordsDB).db.users tk tier
          = some (tierQuota tier u - 1)) :=
  chatpro_c4_output_replacement sampleEnv guestReq flaggedBackend wordsDB
    (by decide) (by decide)

theorem chatBody_outcome_not_admission (e : Env) (r : ChatRequest) (b : BackendResponse)
    (db : DB) :
    (chatBody e r b db).outcome ≠ Outcome.rejectedBlocked ∧
      (chatBody e r b db).outcome ≠ Outcome.rejectedRateLimited := by
  obtain ⟨qe, qp, hout⟩ := successResult_outcome_events e r b db
  unfold chatBody
  refine ⟨?_, ?_⟩ <;> split_ifs <;> first | (simp; done) | (rw [hout]; simp)

theorem chatMessage_rate_limited (e : Env) (r : ChatRequest) (b : BackendResponse) (db : DB)
    (rule : IpRule) (l : Nat)
    (hnb : db.ip_rules.any (fun x => x.ip == r.ip && x.rtype == "block") = false)
    (hrule : db.ip_rules.find? (fun x => x.ip == r.ip && x.rtype == "limit") = some rule)
    (hlv : rule.limit_value = some l) (hL : l ≠ 0)
    (hcur : l ≤ currentCount db.ip_requests r.ip e.today) :
    chatMessage e r b db = ⟨Outcome.rejectedRateLimited, db, none⟩ := by
  have h0 : (l == 0) = false := by simp [hL]
  have hstep : checkIpRulesStep e.today r.ip db = (some Outcome.rejectedRateLimited, db) := by
    unfold checkIpRulesStep
    rw [hnb, hrule]
    dsimp only
    rw [hlv]
    dsimp only
    rw [h0]
    simp only [Bool.false_eq_true, if_false]
    rw [if_pos hcur]
  exact chatMessage_eq_reject e r b db _ db hstep

theorem chatMessage_limit_admitted (e : Env) (r : ChatRequest) (b : BackendResponse) (db : DB)
    (rule : IpRule) (l : Nat)
    (hnb : db.ip_rules.any (fun x => x.ip == r.ip && x.rtype == "block") = false)
    (hrule : db.ip_rules.find? (fun x => x.ip == r.ip && x.rtype == "limit") = some rule)
    (hlv : rule.limit_value = some l) (hL : l ≠ 0)
    (hcur : currentCount db.ip_requests r.ip e.today < l) :
    (chatMessage e r b db).outcome ≠ Outcome.rejectedBlocked ∧
      (chatMessage e r b db).outcome ≠ Outcome.rejectedRateLimited ∧
      (chatMessage e r b db).db.ip_rules = db.ip_rules ∧
      currentCount (chatMessage e r b db).db.ip_requests r.ip e.today
        = currentCount db.ip_requests r.ip e.today + 1 := by
  have h0 : (l == 0) = false := by simp [hL]
  have hstep : checkIpRulesStep e.today r.ip db
      = (none, { db with ip_requests := bumpIp r.ip e.today db.ip_requests }) := by
    unfold checkIpRulesStep
    rw [hnb, hrule]
    dsimp only
    rw [hlv]
    dsimp only
    rw [h0]
    simp only [Bool.false_eq_true, if_false]
    rw [if_neg (by omega : ¬ l ≤ currentCount db.ip_requests r.ip e.today)]
  rw [chatMessage_eq_body e r b db _ hstep]
  refine ⟨(chatBody_outcome_not_admission e r b _).1,
    (chatBody_outcome_not_admission e r b _).2, ?_, ?_⟩
  · rw [chatBody_ip_rules]
  · rw [chatBody_ip_requests]
    exact currentCount_bumpIp db.ip_requests r.ip e.today

theorem runTurns_limit_aux (ip d : String) (rule : IpRule) (l : Nat)
    (hlv : rule.limit_value = some l) (hL : l ≠ 0) :
    ∀ (ts : List Turn) (db : DB),
      (∀ t ∈ ts, t.req.ip = ip ∧ t.env.today = d) →
      db.ip_rules.any (fun x => x.ip == ip && x.rtype == "block") = false →
      db.ip_rules.find? (fun x => x.ip == ip && x.rtype == "limit") = some rule →
      currentCount db.ip_requests ip d + ts.length ≤ l →
      (∀ res ∈ (runTurns ts db).1,
        res.outcome ≠ Outcome.rejectedBlocked ∧
          res.outcome ≠ Outcome.rejectedRateLimited) ∧
        (runTurns ts db).2.ip_rules = db.ip_rules ∧
        currentCount (runTurns ts db).2.ip_requests ip d
          = currentCount db.ip_requests ip d + ts.length := by
  intro ts
  induction ts with
  | nil =>
    intro db hts hnb hrule hlen
    exact ⟨by simp [runTurns], rfl, by simp [runTurns]⟩
  | cons t rest ih =>
    intro db hts hnb hrule hlen
    obtain ⟨hip, hd⟩ := hts t (List.mem_cons_self t rest)
    simp only [List.length_cons] at hlen
    have hcur : currentCount db.ip_requests t.req.ip t.env.today < l := by
      rw [hip, hd]
      omega
    have hadm := chatMessage_limit_admitted t.env t.req t.backend db rule l
      (by rw [hip]; exact hnb) (by rw [hip]; exact hrule) hlv hL hcur
    have hcount : currentCount (chatMessage t.env t.req t.backend db).db.ip_requests ip d
        = currentCount db.ip_requests ip d + 1 := by
      have h2 := hadm.2.2.2
      rw [hip, hd] at h2
      exact h2
    have hrest := ih (chatMessage t.env t.req t.backend db).db
      (fun t2 h2 => hts t2 (List.mem_cons_of_mem _ h2))
      (by rw [hadm.2.2.1]; exact hnb)
      (by rw [hadm.2.2.1]; exact hrule)
      (by rw [hcount]; omega)
    refine ⟨?_, ?_, ?_⟩
    · intro res hres
      rw [runTurns_cons] at hres
      rcases List.mem_cons.mp hres with h | h
      · subst h
        exact ⟨hadm.1, hadm.2.1⟩
      · exact hrest.1 res h
    · rw [runTurns_cons]
      dsimp only
      rw [hrest.2.1, hadm.2.2.1]
    · rw [runTurns_cons]
      dsimp only
      rw [hrest.2.2, hcount]
      simp only [List.length_cons]
      omega

/-- C6: for an address with a configured daily limit L ≥ 1 (and no
block rule), (1) a request arriving when today's counter is already ≥ L
is rejected with the rate-limit outcome and the store unchanged; (2) a
request arriving when the counter is below L — in particular the first
request of a fresh date, whose counter row is absent — is not rejected
by admission and increments the counter by one; (3) a sequence of up to
L requests on the same date starting from a fresh counter is admitted
in full, ending with the counter at the sequence length; and (4) after
L such requests, the (L+1)-th request on that date is rejected with the
rate-limit outcome. -/
theorem chatpro_c6_rate_limit (ip d : String) (db : DB) (rule : IpRule) (l : Nat)
    (hnb : db.ip_rules.any (fun x => x.ip == ip && x.rtype == "block") = false)
    (hrule : db.ip_rules.find? (fun x => x.ip == ip && x.rtype == "limit") = some rule)
    (hlv : rule.limit_value = some l) (hL : 1 ≤ l) :
    (∀ (e : Env) (r : ChatRequest) (b : BackendResponse), r.ip = ip → e.today = d →
       l ≤ currentCount db.ip_requests ip d →
       chatMessage e r b db = ⟨Outcome.rejectedRateLimited, db, none⟩) ∧
      (∀ (e : Env) (r : ChatRequest) (b : BackendResponse), r.ip = ip → e.today = d →
        currentCount db.ip_requests ip d < l →
        (chatMessage e r b db).outcome ≠ Outcome.rejectedBlocked ∧
          (chatMessage e r b db).outcome ≠ Outcome.rejectedRateLimited ∧
          currentCount (chatMessage e r b db).db.ip_requests ip d
            = currentCount db.ip_requests ip d + 1) ∧
      (∀ ts : List Turn, (∀ t ∈ ts, t.req.ip = ip ∧ t.env.today = d) →
        currentCount db.ip_requests ip d = 0 → ts.length ≤ l →
        (∀ res ∈ (runTurns ts db).1,
          res.outcome ≠ Outcome.rejectedBlocked ∧
            res.outcome ≠ Outcome.rejectedRateLimited) ∧
          currentCount (runTurns ts db).2.ip_requests ip d = ts.length) ∧
      (∀ (ts : List Turn) (e : Env) (r : ChatRequest) (b : BackendResponse),
        (∀ t ∈ ts, t.req.ip = ip ∧ t.env.today = d) →
        currentCount db.ip_requests ip d = 0 → ts.length = l →
        r.ip = ip → e.today = d →
        chatMessage e r b (runTurns ts db).2
          = ⟨Outcome.rejectedRateLimited, (runTurns ts db).2, none⟩) := by
  have hL0 : l ≠ 0 := by omega
  refine ⟨?_, ?_, ?_, ?_⟩
  · intro e r b hip hd hcur
    subst hip
    subst hd
    exact chatMessage_rate_limited e r b db rule l hnb hrule hlv hL0 hcur
  · intro e r b hip hd hcur
    subst hip
    subst hd
    have h := chatMessage_limit_admitted e r b db rule l hnb hrule hlv hL0 hcur
    exact ⟨h.1, h.2.1, h.2.2.2⟩
  · intro ts hts h0 hlen
    have haux := runTurns_limit_aux ip d rule l hlv hL0 ts db hts hnb hrule (by omega)
    exact ⟨haux.1, by rw [haux.2.2, h0]; simp⟩
  · intro ts e r b hts h0 hlen hip hd
    subst hip
    subst hd
    have haux := runTurns_limit_aux r.ip e.today rule l hlv hL0 ts db hts hnb hrule (by omega)
    refine chatMessage_rate_limited e r b _ rule l ?_ ?_ hlv hL0 ?_
    · rw [haux.2.1]
      exact hnb
    · rw [haux.2.1]
      exact hrule
    · rw [haux.2.2, h0, hlen]
      simp

/-- C6 witness: with a limit of 1 for the address and a fresh counter,
the request after one admitted turn is rejected with the rate-limit
outcome. -/
theorem chatpro_c6_witness :
    chatMessage sampleEnv guestReq okBackend
        (runTurns [⟨sampleEnv, guestReq, okBackend⟩]
          { emptyDB with ip_rules := [⟨"9.9.9.9", "limit", some 1⟩] }).2
      = ⟨Outcome.rejectedRateLimited,
          (runTurns [⟨sampleEnv, guestReq, okBackend⟩]
            { emptyDB with ip_rules := [⟨"9.9.9.9", "limit", some 1⟩] }).2, none⟩ :=
  (chatpro_c6_rate_limit "9.9.9.9" "2026-10-11"
      { emptyDB with ip_rules := [⟨"9.9.9.9", "limit", some 1⟩] }
      ⟨"9.9.9.9", "limit", some 1⟩ 1 (by decide) (by decide) (by decide) (by decide)).2.2.2
    [⟨sampleEnv, guestReq, okBackend⟩] sampleEnv guestReq okBackend
    (by decide) (by decide) (by decide) (by decide) (by decide)

theorem convCommit_mem (e : Env) (r : ChatRequest) (uid : Option String) (convId : String)
    (convs : List ConversationRow) :
    (convCommit e r uid convId convs).any (fun c => c.id == convId) = true := by
  unfold convCommit
  split_ifs with h
  · exact h
  · simp [List.any_append]

/-- C9: a successful turn with a non-empty latest user message leaves
the conversation fetchable by its id with exactly two new rows appended
after the pre-existing ones — the user message and then the assistant
message, in creation-time ascending order — and the assistant row's
prompt/completion token counts are the ones reported in the terminal
stream event of the turn. -/
theorem chatpro_c9_roundtrip (e : Env) (r : ChatRequest) (b : BackendResponse) (db : DB)
    (hs : (chatMessage e r b db).outcome.isSuccess = true)
    (hne : lastUserContent r ≠ "")
    (hsorted : db.messages.Pairwise (fun m1 m2 => m1.created_at ≤ m2.created_at))
    (htime : ∀ m ∈ db.messages, m.created_at < e.t0) :
    ∃ evs c qe qp,
      (chatMessage e r b db).outcome = Outcome.success evs ∧
      evs.getLast? = some (OutEvent.terminal (runStream b.events).usage.input_tokens
        (runStream b.events).usage.output_tokens (runStream b.events).usage.total_tokens
        qe qp) ∧
      getConversationMessages (chatMessage e r b db).db (jsOr r.conversationId e.freshConvId)
        = some ((db.messages.filter
            (fun m => m.conversation_id == jsOr r.conversationId e.freshConvId)) ++
          [⟨e.freshUserMsgId, jsOr r.conversationId e.freshConvId, "user", lastUserContent r,
            e.t0 + 1, 0, 0⟩,
           ⟨e.freshAsstMsgId, jsOr r.conversationId e.freshConvId, "assistant", c,
            e.t0 + 2, (runStream b.events).usage.input_tokens,
            (runStream b.events).usage.output_tokens⟩]) := by
  rcases hA : checkIpRulesStep e.today r.ip db with ⟨o, db1⟩
  cases o with
  | some o =>
    have hR := chatMessage_eq_reject e r b db o db1 hA
    obtain ⟨ho, hdb⟩ := checkIpRulesStep_reject e.today r.ip db o db1 hA
    rw [hR] at hs
    rcases ho with h | h <;> subst h <;> simp [Outcome.isSuccess] at hs
  | none =>
    have hB := chatMessage_eq_body e r b db db1 hA
    obtain ⟨q, hq1⟩ := checkIpRulesStep_snd e.today r.ip db
    rw [hA] at hq1
    have hq2 : db1 = { db with ip_requests := q } := hq1
    subst hq2
    rw [hB] at hs ⊢
    have hEq := chatBody_success_eq e r b _ hs
    rw [hEq]
    obtain ⟨qe, qp, hout⟩ := successResult_outcome_events e r b { db with ip_requests := q }
    refine ⟨_, (if checkSensitive ({ db with ip_requests := q } : DB).sensitive_words
        (runStream b.events).content then refusalText else (runStream b.events).content),
      qe, qp, hout, List.getLast?_concat _, ?_⟩
    have hc : (successResult e r b { db with ip_requests := q }).db.conversations.any
        (fun c => c.id == jsOr r.conversationId e.freshConvId) = true := by
      rw [successResult_convs]
      exact convCommit_mem e r _ _ _
    unfold getConversationMessages
    rw [if_pos hc, successResult_messages]
    unfold messagesCommit
    rw [if_neg (by simp [hne] : ¬ (lastUserContent r == "") = true)]
    have hmsgs : List.filter
        (fun m => m.conversation_id == jsOr r.conversationId e.freshConvId)
        ((({ db with ip_requests := q } : DB).messages ++
          [⟨e.freshUserMsgId, jsOr r.conversationId e.freshConvId, "user", lastUserContent r,
            e.t0 + 1, 0, 0⟩]) ++
          [⟨e.freshAsstMsgId, jsOr r.conversationId e.freshConvId, "assistant",
            (if checkSensitive ({ db with ip_requests := q } : DB).sensitive_words
                (runStream b.events).content then refusalText
              else (runStream b.events).content),
            e.t0 + 2, (runStream b.events).usage.input_tokens,
            (runStream b.events).usage.output_tokens⟩])
        = (db.messages.filter
            (fun m => m.conversation_id == jsOr r.conversationId e.freshConvId)) ++
          [⟨e.freshUserMsgId, jsOr r.conversationId e.freshConvId, "user", lastUserContent r,
            e.t0 + 1, 0, 0⟩,
           ⟨e.freshAsstMsgId, jsOr r.conversationId e.freshConvId, "assistant",
            (if checkSensitive ({ db with ip_requests := q } : DB).sensitive_words
                (runStream b.events).content then refusalText
              else (runStream b.events).content),
            e.t0 + 2, (runStream b.events).usage.input_tokens,
            (runStream b.events).usage.output_tokens⟩] := by
      simp [List.filter_append]
    rw [hmsgs]
    congr 1
    apply List.Sorted.insertionSort_eq
    show List.Pairwise _ _
    refine List.pairwise_append.mpr ⟨?_, ?_, ?_⟩
    · exact List.Pairwise.sublist (List.filter_sublist _) hsorted
    · simp
    · intro m hm x hx
      have hmem : m ∈ db.messages := List.mem_of_mem_filter hm
      have hlt := htime m hmem
      simp only [List.mem_cons, List.not_mem_nil, or_false] at hx
      rcases hx with h | h
      · subst h
        show m.created_at ≤ e.t0 + 1
        omega
      · subst h
        show m.created_at ≤ e.t0 + 2
        omega

/-- C9 witness: a successful guest turn on an empty store. -/
theorem chatpro_c9_witness :
    ∃ evs c qe qp,
      (chatMessage sampleEnv guestReq okBackend emptyDB).outcome = Outcome.success evs ∧
      evs.getLast? = some (OutEvent.terminal
        (runStream okBackend.events).usage.input_tokens
        (runStream okBackend.events).usage.output_tokens
        (runStream okBackend.events).usage.total_tokens qe qp) ∧
      getConversationMessages (chatMessage sampleEnv guestReq okBackend emptyDB).db
          (jsOr guestReq.conversationId sampleEnv.freshConvId)
        = some ((emptyDB.messages.filter
            (fun m => m.conversation_id == jsOr guestReq.conversationId
              sampleEnv.freshConvId)) ++
          [⟨sampleEnv.freshUserMsgId, jsOr guestReq.conversationId sampleEnv.freshConvId,
            "user", lastUserContent guestReq, sampleEnv.t0 + 1, 0, 0⟩,
           ⟨sampleEnv.freshAsstMsgId, jsOr guestReq.conversationId sampleEnv.freshConvId,
            "assistant", c, sampleEnv.t0 + 2,
            (runStream okBackend.events).usage.input_tokens,
            (runStream okBackend.events).usage.output_tokens⟩]) :=
  chatpro_c9_roundtrip sampleEnv guestReq okBackend emptyDB (by decide) (by decide)
    List.Pairwise.nil (fun m hm => absurd hm (List.not_mem_nil m))

end Chatpro
